import Mathlib

/-!
Verification development for the photo mockup / watermark pipeline
(src/photo_sizemockup_watermark.py).

The Python program is shallowly embedded below.  Images are modelled as a
mode string together with pixel dimensions and a total pixel function;
PIL primitives used by the program (new, convert, alpha_composite, paste
with alpha mask, ImageDraw.text, resize) are modelled as pure functions on
that structure.  Font objects are external to the program (load_font probes
the host file system), so a font is modelled by its deterministic metrics
(textbbox width/height) and a glyph coverage mask, and PIL's
Image.rotate(angle, expand=True) is kept as an explicit function parameter;
all theorems hold for every such font / rotation function.  Machine floats
appear in the source only as the constants 1.5 (exact in binary, embedded
as multiplication by 3 followed by division by 2), 0.05 and 0.025
(embedded as division by 20 and by 40, their exact rational values).
-/

namespace PhotoMockup

/-- RGBA pixel with channels as natural numbers. -/
structure Pix where
  r : Nat
  g : Nat
  b : Nat
  a : Nat

/-- Font handle returned by load_font (lines 57-76).  The actual glyph data
is external, so a font is modelled by its point size, its deterministic text
metrics (the textbbox width/height measurement of lines 92-97 and 159-164)
and a glyph coverage predicate used when text is drawn. -/
structure Font where
  size : Nat
  measure : String → Nat × Nat
  coverage : String → Int → Int → Bool

/-- A PIL image: colour mode, pixel dimensions, and pixel data. -/
structure PImage where
  mode : String
  width : Nat
  height : Nat
  data : Nat → Nat → Pix

/-- PIL Image.new('RGBA', (w, h), c). -/
def newRGBA (w h : Nat) (c : Pix) : PImage :=
  ⟨"RGBA", w, h, fun _ _ => c⟩

/-- Lines 81-82 / 115-116: if image.mode != 'RGBA': image = image.convert('RGBA').
Conversion from an opaque mode sets every alpha to 255. -/
def ensureRGBA (img : PImage) : PImage :=
  if img.mode = "RGBA" then img
  else ⟨"RGBA", img.width, img.height, fun x y =>
    ⟨(img.data x y).r, (img.data x y).g, (img.data x y).b, 255⟩⟩

/-- PIL image.convert('RGB'): drop the alpha channel, keep dimensions. -/
def convertRGB (img : PImage) : PImage :=
  ⟨"RGB", img.width, img.height, fun x y =>
    ⟨(img.data x y).r, (img.data x y).g, (img.data x y).b, 255⟩⟩

/-- Lines 515-516: if img.mode != 'RGB': img = img.convert('RGB'). -/
def ensureRGB (img : PImage) : PImage :=
  if img.mode = "RGB" then img else convertRGB img

/-- Straight-alpha source-over compositing of one pixel (top over bottom),
as performed per pixel by PIL Image.alpha_composite.  The claims proved
below depend only on determinism and on preservation of dimensions, not on
the exact rounding of the blend, so ordinary truncating division is used. -/
def overPix (top bot : Pix) : Pix :=
  let a := top.a + bot.a * (255 - top.a) / 255
  if a = 0 then ⟨0, 0, 0, 0⟩
  else
    ⟨(top.r * top.a + bot.r * bot.a * (255 - top.a) / 255) / a,
     (top.g * top.a + bot.g * bot.a * (255 - top.a) / 255) / a,
     (top.b * top.a + bot.b * bot.a * (255 - top.a) / 255) / a,
     a⟩

/-- PIL Image.alpha_composite(base, top): top composited over base; both
arguments have equal size in every call site of the program, and the result
takes the first argument's dimensions. -/
def alphaComposite (base top : PImage) : PImage :=
  ⟨"RGBA", base.width, base.height, fun x y => overPix (top.data x y) (base.data x y)⟩

/-- PIL ImageDraw.text(pos, text, font, fill): wherever the glyph mask of
the font covers a pixel, the fill colour is deposited (antialiased partial
coverage is abstracted to a boolean mask; no proved claim depends on blend
weights).  Dimensions and mode are unchanged. -/
def drawText (img : PImage) (font : Font) (text : String) (pos : Int × Int) (fill : Pix) : PImage :=
  ⟨img.mode, img.width, img.height, fun x y =>
    if font.coverage text ((x : Int) - pos.1) ((y : Int) - pos.2) then fill
    else img.data x y⟩

/-- Line 146: overlay.paste(ribbon_img, (paste_x, paste_y), ribbon_img) —
paste with the tile's own alpha channel as mask, clipped to the base image
bounds.  The base image keeps its dimensions. -/
def pasteMask (base tile : PImage) (px py : Int) : PImage :=
  ⟨base.mode, base.width, base.height, fun x y =>
    let dx : Int := (x : Int) - px
    let dy : Int := (y : Int) - py
    if 0 ≤ dx ∧ dx < (tile.width : Int) ∧ 0 ≤ dy ∧ dy < (tile.height : Int) ∧
        0 < (tile.data dx.toNat dy.toNat).a then
      tile.data dx.toNat dy.toNat
    else base.data x y⟩

/-- Line 524: img.resize((width, height), Image.Resampling.LANCZOS).
The output has exactly the requested dimensions; the Lanczos kernel lives
inside PIL, so the resampled pixel value is modelled by a deterministic
proportional lookup into the source — every claim proved about resizing
concerns only the output dimensions and determinism. -/
def resizeLanczos (img : PImage) (w h : Nat) : PImage :=
  ⟨img.mode, w, h, fun x y => img.data (x * img.width / w) (y * img.height / h)⟩

/-- Iteration positions of the while-loop of lines 178-185
(while current_x < ribbon_width: ... current_x += text_spacing),
realised by structural recursion on a fuel argument.  The fuel
ribbon_width - current used by whileXs below is sufficient whenever
spacing ≥ 1, which always holds in the program (spacing = text_width + 60);
whileXs_step / whileXs_stop prove that the fuel never truncates the loop. -/
def whileXsAux : Nat → Nat → Nat → Nat → List Nat
  | 0, _, _, _ => []
  | fuel + 1, ribbon_width, spacing, current =>
    if current < ribbon_width then
      current :: whileXsAux fuel ribbon_width spacing (current + spacing)
    else []

/-- The list of current_x values at which the loop body of lines 178-185
draws the text.  A zero spacing (impossible in the program, where spacing =
text_width + 60 ≥ 60; Python would loop forever there) returns the empty
list. -/
def whileXs (ribbon_width spacing current : Nat) : List Nat :=
  if spacing = 0 then [] else whileXsAux (ribbon_width - current) ribbon_width spacing current

/-- create_ribbon_watermark (lines 152-191): build one horizontal ribbon
tile with repeated shadowed text, rotated (with expansion) when the angle
is nonzero.  int(image_width * 1.5) is exact float arithmetic (1.5 = 3/2 is
a binary float) and is embedded as image_width * 3 / 2 with Nat division.
The rotate parameter models PIL Image.rotate(angle, expand=True). -/
def create_ribbon_watermark (rotate : PImage → Int → PImage) (image_width : Nat)
    (text : String) (font : Font) (angle : Int)
    (text_color shadow_color : Pix) (font_size : Nat) : PImage :=
  let text_width := (font.measure text).1
  let text_height := (font.measure text).2
  let text_spacing := text_width + 60
  let ribbon_width := image_width * 3 / 2
  let ribbon_height := max 80 (text_height + 40)
  let base := newRGBA ribbon_width ribbon_height ⟨0, 0, 0, 0⟩
  let y := (ribbon_height - text_height) / 2
  let shadow_offset := max 1 (font_size / 30)
  let xs := whileXs ribbon_width text_spacing 0
  let drawn := xs.foldl (fun im cx =>
    drawText (drawText im font text
        (((cx : Nat) : Int) + ((shadow_offset : Nat) : Int),
         ((y : Nat) : Int) + ((shadow_offset : Nat) : Int)) shadow_color)
      font text (((cx : Nat) : Int), ((y : Nat) : Int)) text_color) base
  if angle ≠ 0 then rotate drawn angle else drawn

/-- Paste-position computation of lines 133 and 140-143:
ribbon_y = vertical_spacing * (i + 1);
paste_y = ribbon_y - ribbon_img.height // 2;
paste_y = max(0, min(paste_y, image.height - ribbon_img.height)). -/
def ribbonPasteY (image_height tile_height vertical_spacing i : Nat) : Int :=
  let ribbon_y := vertical_spacing * (i + 1)
  let paste_y : Int := (ribbon_y : Int) - ((tile_height / 2 : Nat) : Int)
  max 0 (min paste_y ((image_height : Int) - (tile_height : Int)))

/-- add_ribbon_watermarks (lines 112-150): equally spaced ribbon tiles are
pasted onto one transparent overlay which is then alpha-composited onto the
base image once, and the result flattened to RGB.  int(image.width * 0.025)
is embedded as image.width / 40 (the exact rational value of the float
constant). -/
def add_ribbon_watermarks (rotate : PImage → Int → PImage) (fontEnv : Nat → Font)
    (image0 : PImage) (text : String) (opacity : Nat) (ribbon_count : Nat) (angle : Int) : PImage :=
  let image := ensureRGBA image0
  let font_size := max 20 (image.width / 40)
  let font := fontEnv font_size
  let text_color : Pix := ⟨255, 255, 255, opacity⟩
  let shadow_color : Pix := ⟨0, 0, 0, opacity / 3⟩
  let vertical_spacing := image.height / (ribbon_count + 1)
  let overlay := (List.range ribbon_count).foldl (fun ov i =>
    let ribbon_img := create_ribbon_watermark rotate image.width text font angle text_color shadow_color font_size
    let paste_x : Int := 0
    let paste_y := ribbonPasteY image.height ribbon_img.height vertical_spacing i
    pasteMask ov ribbon_img paste_x paste_y) (newRGBA image.width image.height ⟨0, 0, 0, 0⟩)
  convertRGB (alphaComposite image overlay)

/-- Centered text position of lines 100-101: x = (W - tw) // 2 and
y = (H - th) // 2, with Python floor division on possibly negative
differences embedded as Int.fdiv. -/
def center_position (W H tw th : Nat) : Int × Int :=
  (((W : Int) - (tw : Int)).fdiv 2, ((H : Int) - (th : Int)).fdiv 2)

/-- add_center_watermark (lines 78-110): a single shadowed text drawn at
the centre of a transparent overlay, composited once onto the image and
flattened to RGB.  int(image.width * 0.05) is embedded as image.width / 20
(the exact rational value of the float constant). -/
def add_center_watermark (fontEnv : Nat → Font) (image0 : PImage)
    (text : String) (opacity : Nat) : PImage :=
  let image := ensureRGBA image0
  let overlay := newRGBA image.width image.height ⟨0, 0, 0, 0⟩
  let font_size := max 30 (image.width / 20)
  let font := fontEnv font_size
  let text_width := (font.measure text).1
  let text_height := (font.measure text).2
  let xy := center_position image.width image.height text_width text_height
  let shadow_offset := max 2 (font_size / 20)
  let overlay := drawText overlay font text (xy.1 + (shadow_offset : Int), xy.2 + (shadow_offset : Int)) ⟨0, 0, 0, opacity / 2⟩
  let overlay := drawText overlay font text xy ⟨255, 255, 255, opacity⟩
  convertRGB (alphaComposite image overlay)

/-- The watermark_config dictionary of the program (style plus its
parameters), as a tagged variant. -/
inductive WatermarkStyle where
  | none
  | center (text : String) (opacity : Nat)
  | ribbon (text : String) (opacity : Nat) (ribbon_count : Nat) (angle : Int)

/-- The per-size watermark dispatch of create_images, lines 527-543:
center and ribbon styles call their watermark function, any other style
uses the resized image itself (final_image = resized, line 543). -/
def applyWatermark (rotate : PImage → Int → PImage) (fontEnv : Nat → Font)
    (style : WatermarkStyle) (img : PImage) : PImage :=
  match style with
  | WatermarkStyle.none => img
  | WatermarkStyle.center text opacity => add_center_watermark fontEnv img text opacity
  | WatermarkStyle.ribbon text opacity ribbon_count angle =>
      add_ribbon_watermarks rotate fontEnv img text opacity ribbon_count angle

/-- The ribbon tile built by the loop body of lines 132-138 at loop index i.
The index is a parameter, but — exactly as at line 136-138 of the source —
none of the arguments passed to create_ribbon_watermark depends on it. -/
def ribbon_tile_for_index (rotate : PImage → Int → PImage) (fontEnv : Nat → Font)
    (image : PImage) (text : String) (opacity : Nat) (angle : Int) (_i : Nat) : PImage :=
  create_ribbon_watermark rotate image.width text (fontEnv (max 20 (image.width / 40))) angle
    ⟨255, 255, 255, opacity⟩ ⟨0, 0, 0, opacity / 3⟩ (max 20 (image.width / 40))

/-- One iteration of the size loop of create_images (lines 520-543):
resize to the requested pixel dimensions, then apply the configured
watermark style. -/
def processSize (rotate : PImage → Int → PImage) (fontEnv : Nat → Font)
    (img : PImage) (style : WatermarkStyle) (w h : Nat) : PImage :=
  let resized := resizeLanczos img w h
  applyWatermark rotate fontEnv style resized

/-- The fixed size table of create_images, lines 444-454. -/
def all_print_sizes : List (String × Nat × Nat) :=
  [("5x7", 1500, 2100),
   ("8x10", 2400, 3000),
   ("8.5x11", 2550, 3300),
   ("11x14", 3300, 4200),
   ("12x16", 3600, 4800),
   ("16x20", 4800, 6000),
   ("18x24", 5400, 7200),
   ("20x24", 6000, 7200),
   ("24x36", 7200, 10800)]

/-- Output directory name, lines 489-494. -/
def output_folder (base : String) : WatermarkStyle → String
  | WatermarkStyle.none => base ++ "_clean_prints"
  | WatermarkStyle.center _ _ => base ++ "_center_watermarked"
  | WatermarkStyle.ribbon _ _ _ _ => base ++ "_ribbon_watermarked"

/-- Output file name, lines 546-549. -/
def output_filename (base size : String) : WatermarkStyle → String
  | WatermarkStyle.none => base ++ "_" ++ size ++ "_300dpi_clean.jpg"
  | WatermarkStyle.center _ _ => base ++ "_" ++ size ++ "_300dpi_watermarked.jpg"
  | WatermarkStyle.ribbon _ _ _ _ => base ++ "_" ++ size ++ "_300dpi_watermarked.jpg"

/-- A saved output file: final_image.save(filepath, 'JPEG', quality=95,
dpi=(300, 300)), line 552.  JPEG encoding is a deterministic function of
the image and the two parameters, so the file content is modelled by that
triple. -/
structure FileContent where
  image : PImage
  quality : Nat
  dpi : Nat × Nat

/-- The output file system: a map from path to file content. -/
def FS : Type := String → Option FileContent

/-- Writing one file: later writes to the same path overwrite. -/
def writeFile (fs : FS) (name : String) (c : FileContent) : FS :=
  fun n => if n = name then some c else fs n

/-- Applying a list of writes in order. -/
def applyWrites (ws : List (String × FileContent)) (fs : FS) : FS :=
  ws.foldl (fun f p => writeFile f p.1 p.2) fs

/-- The last write to a given path in a list of writes, if any. -/
def lastWrite : List (String × FileContent) → String → Option FileContent
  | [], _ => Option.none
  | p :: ws, n =>
    match lastWrite ws n with
    | some c => some c
    | Option.none => if n = p.1 then some p.2 else Option.none

/-- The (path, content) writes produced by one run of create_images
(lines 513-552) for a source image, base name, watermark configuration and
selected size list, in size-table iteration order. -/
def pipelineWrites (rotate : PImage → Int → PImage) (fontEnv : Nat → Font)
    (img : PImage) (base_name : String) (style : WatermarkStyle)
    (sizes : List (String × Nat × Nat)) : List (String × FileContent) :=
  let img := ensureRGB img
  sizes.map (fun s =>
    (output_folder base_name style ++ "/" ++ output_filename base_name s.1 style,
     ⟨processSize rotate fontEnv img style s.2.1 s.2.2, 95, (300, 300)⟩))

/-- The effect of one full create_images run on the output file system. -/
def create_images_fs (rotate : PImage → Int → PImage) (fontEnv : Nat → Font)
    (img : PImage) (base_name : String) (style : WatermarkStyle)
    (sizes : List (String × Nat × Nat)) (fs : FS) : FS :=
  applyWrites (pipelineWrites rotate fontEnv img base_name style sizes) fs

/-- Control flow of the size loop under the single try/except of
create_images, lines 513-567: sizes are processed in order; the first size
whose render-and-save step raises stops the loop, keeping exactly the files
already produced and touching no later size.  The fallible per-size step is
a parameter because the exceptions originate inside PIL. -/
def processLoop {E F : Type} (renderSave : String × Nat × Nat → Except E F) :
    List (String × Nat × Nat) → List F × Option E
  | [] => ([], Option.none)
  | s :: rest =>
    match renderSave s with
    | Except.error e => ([], some e)
    | Except.ok f =>
      let done := processLoop renderSave rest
      (f :: done.1, done.2)

/-! Helper lemmas shared by the claim theorems. -/

@[simp] theorem ensureRGBA_width (img : PImage) : (ensureRGBA img).width = img.width := by
  unfold ensureRGBA
  split <;> rfl

@[simp] theorem ensureRGBA_height (img : PImage) : (ensureRGBA img).height = img.height := by
  unfold ensureRGBA
  split <;> rfl

@[simp] theorem convertRGB_width (img : PImage) : (convertRGB img).width = img.width := rfl

@[simp] theorem convertRGB_height (img : PImage) : (convertRGB img).height = img.height := rfl

@[simp] theorem convertRGB_mode (img : PImage) : (convertRGB img).mode = "RGB" := rfl

@[simp] theorem alphaComposite_width (base top : PImage) :
    (alphaComposite base top).width = base.width := rfl

@[simp] theorem alphaComposite_height (base top : PImage) :
    (alphaComposite base top).height = base.height := rfl

@[simp] theorem drawText_width (img : PImage) (font : Font) (text : String)
    (pos : Int × Int) (fill : Pix) : (drawText img font text pos fill).width = img.width := rfl

@[simp] theorem drawText_height (img : PImage) (font : Font) (text : String)
    (pos : Int × Int) (fill : Pix) : (drawText img font text pos fill).height = img.height := rfl

@[simp] theorem pasteMask_width (base tile : PImage) (px py : Int) :
    (pasteMask base tile px py).width = base.width := rfl

@[simp] theorem pasteMask_height (base tile : PImage) (px py : Int) :
    (pasteMask base tile px py).height = base.height := rfl

@[simp] theorem newRGBA_width (w h : Nat) (c : Pix) : (newRGBA w h c).width = w := rfl

@[simp] theorem newRGBA_height (w h : Nat) (c : Pix) : (newRGBA w h c).height = h := rfl

@[simp] theorem resizeLanczos_width (img : PImage) (w h : Nat) :
    (resizeLanczos img w h).width = w := rfl

@[simp] theorem resizeLanczos_height (img : PImage) (w h : Nat) :
    (resizeLanczos img w h).height = h := rfl

theorem foldl_width_invariant {α : Type} (f : PImage → α → PImage)
    (hw : ∀ im a, (f im a).width = im.width) :
    ∀ (l : List α) (im : PImage), (l.foldl f im).width = im.width := by
  intro l
  induction l with
  | nil => intro im; rfl
  | cons a t ih =>
    intro im
    calc ((a :: t).foldl f im).width = (t.foldl f (f im a)).width := rfl
    _ = (f im a).width := ih (f im a)
    _ = im.width := hw im a

theorem foldl_height_invariant {α : Type} (f : PImage → α → PImage)
    (hh : ∀ im a, (f im a).height = im.height) :
    ∀ (l : List α) (im : PImage), (l.foldl f im).height = im.height := by
  intro l
  induction l with
  | nil => intro im; rfl
  | cons a t ih =>
    intro im
    calc ((a :: t).foldl f im).height = (t.foldl f (f im a)).height := rfl
    _ = (f im a).height := ih (f im a)
    _ = im.height := hh im a

theorem whileXsAux_length_le : ∀ (fuel rw s c : Nat), (whileXsAux fuel rw s c).length ≤ fuel := by
  intro fuel
  induction fuel with
  | zero => intro rw s c; simp [whileXsAux]
  | succ n ih =>
    intro rw s c
    unfold whileXsAux
    split
    · simpa using ih rw s (c + s)
    · simp

theorem whileXs_length_le (rw s c : Nat) : (whileXs rw s c).length ≤ rw - c := by
  unfold whileXs
  split
  · simp
  · exact whileXsAux_length_le (rw - c) rw s c

theorem whileXsAux_fuel_irrel : ∀ (f1 f2 rw s c : Nat), s ≠ 0 →
    rw - c ≤ f1 → rw - c ≤ f2 → whileXsAux f1 rw s c = whileXsAux f2 rw s c := by
  intro f1
  induction f1 with
  | zero =>
    intro f2 rw s c hs h1 h2
    have hc : ¬ c < rw := by omega
    cases f2 with
    | zero => rfl
    | succ m => simp [whileXsAux, hc]
  | succ n ih =>
    intro f2 rw s c hs h1 h2
    cases f2 with
    | zero =>
      have hc : ¬ c < rw := by omega
      simp [whileXsAux, hc]
    | succ m =>
      unfold whileXsAux
      split
      · have hrec : whileXsAux n rw s (c + s) = whileXsAux m rw s (c + s) :=
          ih m rw s (c + s) hs (by omega) (by omega)
        rw [hrec]
      · rfl

/-- The fuel-based loop satisfies the defining step equation of the Python
while loop: when current_x < ribbon_width one repetition is drawn and the
cursor advances by the spacing. -/
theorem whileXs_step (rw s c : Nat) (hs : s ≠ 0) (hc : c < rw) :
    whileXs rw s c = c :: whileXs rw s (c + s) := by
  have hL : whileXs rw s c = c :: whileXsAux (rw - (c + s)) rw s (c + s) := by
    unfold whileXs
    rw [if_neg hs]
    obtain ⟨k, hk⟩ : ∃ k, rw - c = k + 1 := ⟨rw - c - 1, by omega⟩
    rw [hk]
    show (if c < rw then c :: whileXsAux k rw s (c + s) else []) = _
    rw [if_pos hc,
      whileXsAux_fuel_irrel k (rw - (c + s)) rw s (c + s) hs (by omega) (by omega)]
  have hR : whileXs rw s (c + s) = whileXsAux (rw - (c + s)) rw s (c + s) := by
    unfold whileXs
    rw [if_neg hs]
  rw [hL, hR]

/-- The loop exits as soon as current_x reaches ribbon_width. -/
theorem whileXs_stop (rw s c : Nat) (hc : rw ≤ c) : whileXs rw s c = [] := by
  unfold whileXs
  split
  · rfl
  · have : rw - c = 0 := by omega
    rw [this]
    rfl

theorem applyWrites_eval : ∀ (ws : List (String × FileContent)) (fs : FS) (n : String),
    applyWrites ws fs n =
      (match lastWrite ws n with
       | some c => some c
       | Option.none => fs n) := by
  intro ws
  induction ws with
  | nil => intro fs n; rfl
  | cons p ws ih =>
    intro fs n
    have hstep : applyWrites (p :: ws) fs n = applyWrites ws (writeFile fs p.1 p.2) n := rfl
    rw [hstep, ih]
    show (match lastWrite ws n with
          | some c => some c
          | Option.none => writeFile fs p.1 p.2 n) = _
    cases h : lastWrite ws n with
    | some c => simp [lastWrite, h]
    | none =>
      simp only [lastWrite, h, writeFile]
      split <;> rfl

theorem applyWrites_idem (ws : List (String × FileContent)) (fs : FS) :
    applyWrites ws (applyWrites ws fs) = applyWrites ws fs := by
  funext n
  rw [applyWrites_eval, applyWrites_eval]
  cases h : lastWrite ws n with
  | some c => rfl
  | none => rfl

/-! Claim theorems. -/

/-- Claim C1: for every size label of the fixed 9-entry size table selected
for a run, the image produced for that label has pixel dimensions exactly
the table's (width, height) pair, regardless of the configured watermark
style — resizing yields the target dimensions and neither watermark path
changes them. -/
theorem C1_sizes_exact_dimensions (rotate : PImage → Int → PImage) (fontEnv : Nat → Font)
    (img : PImage) (style : WatermarkStyle) (label : String) (w h : Nat)
    (_hmem : (label, w, h) ∈ all_print_sizes) :
    (processSize rotate fontEnv img style w h).width = w ∧
    (processSize rotate fontEnv img style w h).height = h := by
  cases style <;>
    simp [processSize, applyWatermark, add_center_watermark, add_ribbon_watermarks]

/-- Witness for C1 at the "8x10" table entry with the None style. -/
theorem C1_witness :
    (("8x10", 2400, 3000) ∈ all_print_sizes) ∧
    ((processSize (fun im _ => im) (fun n => ⟨n, fun _ => (0, 0), fun _ _ _ => false⟩)
        ⟨"RGB", 30, 20, fun _ _ => ⟨1, 2, 3, 255⟩⟩ WatermarkStyle.none 2400 3000).width = 2400 ∧
      (processSize (fun im _ => im) (fun n => ⟨n, fun _ => (0, 0), fun _ _ _ => false⟩)
        ⟨"RGB", 30, 20, fun _ _ => ⟨1, 2, 3, 255⟩⟩ WatermarkStyle.none 2400 3000).height = 3000) :=
  ⟨by decide,
   C1_sizes_exact_dimensions (fun im _ => im) (fun n => ⟨n, fun _ => (0, 0), fun _ _ _ => false⟩)
     ⟨"RGB", 30, 20, fun _ _ => ⟨1, 2, 3, 255⟩⟩ WatermarkStyle.none "8x10" 2400 3000 (by decide)⟩

/-- Claim C2: for every text (including the empty string, whose measured
width is 0) and every image width, the ribbon-tile building loop advances
by measured_text_width + 60 per repetition — strictly positive even for
zero-width text — and therefore performs only finitely many repetitions
(at most the tile width of int(image_width * 1.5) pixels). -/
theorem C2_ribbon_loop_terminates (font : Font) (text : String) (image_width : Nat) :
    0 < (font.measure text).1 + 60 ∧
    (whileXs (image_width * 3 / 2) ((font.measure text).1 + 60) 0).length ≤
      image_width * 3 / 2 :=
  ⟨by omega,
   by simpa using whileXs_length_le (image_width * 3 / 2) ((font.measure text).1 + 60) 0⟩

/-- Claim C3 counterexample: at image_width = 1 (a positive integer) the
builder's tile width is int(1 * 1.5) = 1, and 2 * 1 < 3 * 1, i.e. the tile
is strictly narrower than the exact real product image_width * 1.5 — the
claimed bound fails for odd image widths because int() truncates. -/
theorem C3_counterexample_tile_narrower_than_ratio :
    2 * (create_ribbon_watermark (fun im _ => im) 1 ""
        ⟨20, fun _ => (0, 0), fun _ _ _ => false⟩ 0
        ⟨255, 255, 255, 120⟩ ⟨0, 0, 0, 40⟩ 20).width < 3 * 1 := by decide

/-- Claim C3 (amended): the unrotated ribbon tile has width exactly
int(image_width * 1.5) = image_width * 3 / 2 rounded down — hence at least
image_width * 1.5 - 1/2, i.e. 3 * w ≤ 2 * width + 1, with equality to the
exact product only for even widths — and height exactly
max(80, text_height + 40). -/
theorem C3_ribbon_tile_dimensions (rotate : PImage → Int → PImage) (w : Nat)
    (text : String) (font : Font) (tc sc : Pix) (fsz : Nat) :
    (create_ribbon_watermark rotate w text font 0 tc sc fsz).width = w * 3 / 2 ∧
    (create_ribbon_watermark rotate w text font 0 tc sc fsz).height =
      max 80 ((font.measure text).2 + 40) ∧
    3 * w ≤ 2 * (w * 3 / 2) + 1 := by
  refine ⟨?_, ?_, by omega⟩
  · simp only [create_ribbon_watermark, ne_eq, not_true_eq_false, if_false]
    rw [foldl_width_invariant]
    · rfl
    · intro im a; rfl
  · simp only [create_ribbon_watermark, ne_eq, not_true_eq_false, if_false]
    rw [foldl_height_invariant]
    · rfl
    · intro im a; rfl

/-- Claim C4: with ribbon count k on an image of height H the engine uses
verticalSpacing = H / (k + 1) (integer division) and pastes, for each index
i < k, the tile at horizontal position 0 and vertical position
verticalSpacing * (i + 1) - tileHeight / 2 clamped by
max(0, min(·, H - tileHeight)), all onto one shared transparent overlay
that is alpha-composited onto the base image exactly once; whenever
tileHeight ≤ H the clamped position lies in [0, H - tileHeight]. -/
theorem C4_ribbon_placement (rotate : PImage → Int → PImage) (fontEnv : Nat → Font)
    (img : PImage) (text : String) (opacity ribbon_count : Nat) (angle : Int) :
    (add_ribbon_watermarks rotate fontEnv img text opacity ribbon_count angle =
      (let image := ensureRGBA img
       let font_size := max 20 (image.width / 40)
       let tile := create_ribbon_watermark rotate image.width text (fontEnv font_size) angle
         ⟨255, 255, 255, opacity⟩ ⟨0, 0, 0, opacity / 3⟩ font_size
       let vertical_spacing := image.height / (ribbon_count + 1)
       convertRGB (alphaComposite image
         ((List.range ribbon_count).foldl
           (fun ov i => pasteMask ov tile 0 (ribbonPasteY image.height tile.height vertical_spacing i))
           (newRGBA image.width image.height ⟨0, 0, 0, 0⟩))))) ∧
    ∀ H tileH vs i : Nat, tileH ≤ H →
      0 ≤ ribbonPasteY H tileH vs i ∧
        ribbonPasteY H tileH vs i ≤ (H : Int) - (tileH : Int) := by
  refine ⟨rfl, ?_⟩
  intro H tileH vs i h
  simp only [ribbonPasteY]
  have hHt : (tileH : Int) ≤ (H : Int) := by exact_mod_cast h
  refine ⟨le_max_left _ _, max_le (by omega) (min_le_right _ _)⟩

/-- Witness for C4: a 100-pixel-high image with an 80-pixel tile,
verticalSpacing 50 and index 0 gives a clamped paste position inside
[0, 20]. -/
theorem C4_witness :
    0 ≤ ribbonPasteY 100 80 50 0 ∧
      ribbonPasteY 100 80 50 0 ≤ ((100 : Nat) : Int) - ((80 : Nat) : Int) :=
  (C4_ribbon_placement (fun im _ => im) (fun n => ⟨n, fun _ => (0, 0), fun _ _ _ => false⟩)
      ⟨"RGBA", 4, 100, fun _ _ => ⟨0, 0, 0, 255⟩⟩ "" 120 1 0).2 100 80 50 0 (by decide)

/-- Claim C5: for a Center spec the engine computes font size
max(30, floor(W * 0.05)), measures the text, and draws the shadow and then
the main text on a full-image transparent overlay at
((W - tw) // 2, (H - th) // 2) (Python floor division), which it then
alpha-composites onto the base image; the drawn position is within half a
pixel of the exact centre offset, i.e. 2x ≤ W - tw ≤ 2x + 1 and likewise
vertically. -/
theorem C5_center_watermark (fontEnv : Nat → Font) (img : PImage)
    (text : String) (opacity : Nat) :
    (add_center_watermark fontEnv img text opacity =
      (let image := ensureRGBA img
       let font_size := max 30 (image.width / 20)
       let font := fontEnv font_size
       let xy := center_position image.width image.height
         (font.measure text).1 (font.measure text).2
       let shadow_offset := max 2 (font_size / 20)
       convertRGB (alphaComposite image
         (drawText
           (drawText (newRGBA image.width image.height ⟨0, 0, 0, 0⟩) font text
             (xy.1 + (shadow_offset : Int), xy.2 + (shadow_offset : Int)) ⟨0, 0, 0, opacity / 2⟩)
           font text xy ⟨255, 255, 255, opacity⟩)))) ∧
    ∀ W H tw th : Nat,
      (2 * (center_position W H tw th).1 ≤ (W : Int) - (tw : Int) ∧
        (W : Int) - (tw : Int) ≤ 2 * (center_position W H tw th).1 + 1) ∧
      (2 * (center_position W H tw th).2 ≤ (H : Int) - (th : Int) ∧
        (H : Int) - (th : Int) ≤ 2 * (center_position W H tw th).2 + 1) := by
  refine ⟨rfl, ?_⟩
  intro W H tw th
  simp only [center_position]
  rw [Int.fdiv_eq_ediv _ (by omega), Int.fdiv_eq_ediv _ (by omega)]
  omega

/-- Claim C6 counterexample: with the None spec the engine returns the very
input image, not a distinct new image — in create_images (line 543) the
none branch is final_image = resized, an alias of its input.  Here the
engine applied to a concrete 2-by-2 image yields that image itself. -/
theorem C6_counterexample_none_not_distinct :
    applyWatermark (fun im _ => im)
        (fun n => ⟨n, fun _ => (0, 0), fun _ _ _ => false⟩)
        WatermarkStyle.none ⟨"RGB", 2, 2, fun _ _ => ⟨9, 9, 9, 255⟩⟩ =
      ⟨"RGB", 2, 2, fun _ _ => ⟨9, 9, 9, 255⟩⟩ := rfl

/-- Claim C6 (amended): the engine never mutates its input (it is a pure
function of the input image); for Center and Ribbon specs it returns a
freshly constructed opaque RGB image, while for the None spec it returns
the input image itself, unchanged, rather than a distinct new image. -/
theorem C6_engine_purity (rotate : PImage → Int → PImage) (fontEnv : Nat → Font)
    (img : PImage) (text : String) (opacity ribbon_count : Nat) (angle : Int) :
    applyWatermark rotate fontEnv WatermarkStyle.none img = img ∧
    (applyWatermark rotate fontEnv (WatermarkStyle.center text opacity) img).mode = "RGB" ∧
    (applyWatermark rotate fontEnv (WatermarkStyle.ribbon text opacity ribbon_count angle) img).mode
      = "RGB" :=
  ⟨rfl, rfl, rfl⟩

/-- Claim C7: applying the watermark engine with the None spec is the
identity transform — the result is pixel-identical to the input image. -/
theorem C7_none_spec_is_identity (rotate : PImage → Int → PImage) (fontEnv : Nat → Font)
    (img : PImage) : applyWatermark rotate fontEnv WatermarkStyle.none img = img := rfl

/-- Claim C8: if the render-and-save step for some size raises, no later
size is processed and the files produced for earlier sizes are exactly
those already written — one failure stops all remaining sizes and no
cleanup is performed. -/
theorem C8_abort_on_first_error {E F : Type} (renderSave : String × Nat × Nat → Except E F)
    (pre post : List (String × Nat × Nat)) (s0 : String × Nat × Nat)
    (g : String × Nat × Nat → F) (e : E)
    (hpre : pre.map renderSave = pre.map (fun s => Except.ok (g s)))
    (herr : renderSave s0 = Except.error e) :
    processLoop renderSave (pre ++ s0 :: post) = (pre.map g, some e) := by
  induction pre with
  | nil => simp [processLoop, herr]
  | cons a t ih =>
    simp only [List.map_cons, List.cons.injEq] at hpre
    obtain ⟨ha, ht⟩ := hpre
    have ihh := ih ht
    simp [processLoop, ha, ihh]

/-- Witness for C8: the middle size fails, so the run keeps the one file
written before it and the size after it is never rendered. -/
theorem C8_witness :
    processLoop (fun s => if s.2.1 = 0 then Except.error 7 else Except.ok s.2.1)
        ([("a", 1, 1)] ++ ("b", 0, 2) :: [("c", 3, 3)]) = ([1], some 7) :=
  C8_abort_on_first_error (fun s => if s.2.1 = 0 then Except.error 7 else Except.ok s.2.1)
    [("a", 1, 1)] [("c", 3, 3)] ("b", 0, 2) (fun s => s.2.1) 7 rfl rfl

/-- Claim C9: the rendering pipeline is a deterministic pure function of
its inputs, and a second identical run deterministically overwrites the
first run's identically named files with identical contents — running
create_images twice leaves exactly the file system produced by running it
once. -/
theorem C9_pipeline_idempotent (rotate : PImage → Int → PImage) (fontEnv : Nat → Font)
    (img : PImage) (base_name : String) (style : WatermarkStyle)
    (sizes : List (String × Nat × Nat)) (fs : FS) :
    create_images_fs rotate fontEnv img base_name style sizes
        (create_images_fs rotate fontEnv img base_name style sizes fs) =
      create_images_fs rotate fontEnv img base_name style sizes fs :=
  applyWrites_idem (pipelineWrites rotate fontEnv img base_name style sizes) fs

/-- Claim C10: within one ribbon-watermark application the tile is rebuilt
once per index from arguments that do not depend on the loop index, so all
tiles are pixel-identical, and only the vertical paste position varies
between placements. -/
theorem C10_ribbon_tiles_index_independent (rotate : PImage → Int → PImage)
    (fontEnv : Nat → Font) (img : PImage) (text : String)
    (opacity ribbon_count : Nat) (angle : Int) :
    (∀ i j : Nat,
      ribbon_tile_for_index rotate fontEnv (ensureRGBA img) text opacity angle i =
        ribbon_tile_for_index rotate fontEnv (ensureRGBA img) text opacity angle j) ∧
    add_ribbon_watermarks rotate fontEnv img text opacity ribbon_count angle =
      (let image := ensureRGBA img
       let vertical_spacing := image.height / (ribbon_count + 1)
       convertRGB (alphaComposite image
         ((List.range ribbon_count).foldl
           (fun ov i =>
             pasteMask ov (ribbon_tile_for_index rotate fontEnv image text opacity angle i) 0
               (ribbonPasteY image.height
                 (ribbon_tile_for_index rotate fontEnv image text opacity angle i).height
                 vertical_spacing i))
           (newRGBA image.width image.height ⟨0, 0, 0, 0⟩)))) :=
  ⟨fun _ _ => rfl, rfl⟩

end PhotoMockup
